import Mathlib

/-!
Shallow embedding of `packages/hardhat/lib/x402Agent.ts` (the `X402Agent`
class) from the BuidlGuidl x402-example repository.

External collaborators (`fetch` wrapped by `wrapFetchWithPayment`,
`decodeXPaymentResponse`, `privateKeyToAccount`) are not code of this
repository; they are modelled as function parameters (oracles), as the
spec treats them (capabilities `signAndPay` and `decodePaymentHeader`).
JavaScript semantics relevant to the wrapper (truthiness, `typeof`,
property assignment on records, `JSON.stringify`) are embedded explicitly.
-/

namespace X402

/-- A JavaScript value, restricted to the shapes the wrapper inspects:
`typeof body === "object"` and truthiness are the only observations the
source makes of `body`, plus `JSON.stringify`.  Numbers are modelled as
integers plus a separate `nan` constructor (only truthiness and
stringification matter here). -/
inductive JSValue where
  | undefined
  | null
  | bool (b : Bool)
  | nan
  | num (n : Int)
  | str (s : String)
  | arr (elems : List JSValue)
  | obj (fields : List (String × JSValue))

/-- JavaScript truthiness: `undefined`, `null`, `false`, `0`, `NaN` and
`""` are falsy; every object (including `{}` and `[]`) is truthy. -/
def truthy : JSValue → Bool
  | .undefined => false
  | .null => false
  | .bool b => b
  | .nan => false
  | .num n => n != 0
  | .str s => s != ""
  | .arr _ => true
  | .obj _ => true

/-- `typeof v === "object"` in JavaScript: true for objects, arrays and
`null`. -/
def isObjectTypeof : JSValue → Bool
  | .null => true
  | .arr _ => true
  | .obj _ => true
  | _ => false

/-- Escape a single character for a JSON string literal (control-character
escapes beyond the two structurally relevant ones are elided; no claim
depends on them). -/
def jsonEscapeChar (c : Char) : String :=
  if c = '"' then "\\\""
  else if c = '\\' then "\\\\"
  else String.singleton c

/-- Quote a string as a JSON string literal. -/
def jsonQuote (s : String) : String :=
  "\"" ++ String.join (s.toList.map jsonEscapeChar) ++ "\""

mutual
/-- `JSON.stringify` on a value: `none` models the JavaScript result
`undefined` (for `undefined` itself).  `NaN` serializes as `null`. -/
def jsonStringifyVal : JSValue → Option String
  | .undefined => none
  | .null => some "null"
  | .nan => some "null"
  | .bool true => some "true"
  | .bool false => some "false"
  | .num n => some (toString n)
  | .str s => some (jsonQuote s)
  | .arr xs => some ("[" ++ String.intercalate "," (jsonStringifyArr xs) ++ "]")
  | .obj fs => some ("\x7b" ++ String.intercalate "," (jsonStringifyObj fs) ++ "\x7d")

/-- Array elements: a non-serializable element becomes `null`. -/
def jsonStringifyArr : List JSValue → List String
  | [] => []
  | x :: xs => (jsonStringifyVal x).getD "null" :: jsonStringifyArr xs

/-- Object fields: a field whose value does not serialize is omitted. -/
def jsonStringifyObj : List (String × JSValue) → List String
  | [] => []
  | (k, v) :: fs =>
    match jsonStringifyVal v with
    | none => jsonStringifyObj fs
    | some s => (jsonQuote k ++ ":" ++ s) :: jsonStringifyObj fs
end

/-- `JSON.stringify(body)` as used on the object branch of `callEndpoint`
(line 145); an object or array always serializes, so the default is never
reached there. -/
def jsonStringify (v : JSValue) : String :=
  (jsonStringifyVal v).getD "undefined"

/-- A JavaScript header record (`Record<string, string>`): an association
list in insertion order with distinct keys maintained by `recordSet`. -/
abbrev HeaderRecord := List (String × String)

/-- Property read `r[k]` on a record. -/
def recordGet (r : HeaderRecord) (k : String) : Option String :=
  (r.find? (fun p => p.1 = k)).map Prod.snd

/-- Property assignment `r[k] = v` on a JavaScript record: an existing key
keeps its position and gets the new value; a new key is appended. -/
def recordSet (r : HeaderRecord) (k v : String) : HeaderRecord :=
  if r.any (fun p => p.1 = k) then
    r.map (fun p => if p.1 = k then (k, v) else p)
  else r ++ [(k, v)]

/-- ASCII-lowercase a header name (character-level, so it stays
kernel-executable). -/
def lowerName (s : String) : String :=
  String.mk (s.data.map Char.toLower)

/-- `Headers.get(name)` on a response: case-insensitive lookup, `null`
(here `none`) when absent. -/
def headersGet (hs : List (String × String)) (name : String) : Option String :=
  (hs.find? (fun p => lowerName p.1 = lowerName name)).map Prod.snd

/-- A JavaScript `Error`-like value caught in `callEndpoint`'s `catch`:
`message` (the empty string models a falsy/absent message) and the
optional `error.response?.data?.error` drill-down. -/
structure JSError where
  message : String
  responseDataError : Option String := none
deriving Repr, DecidableEq

/-- Line 181: `error.message || error.response?.data?.error || "Unknown
error"` (the `||` chain skips falsy, i.e. empty or absent, entries). -/
def errorMessage (e : JSError) : String :=
  if e.message ≠ "" then e.message
  else match e.responseDataError with
    | some s => if s ≠ "" then s else "Unknown error"
    | none => "Unknown error"

/-- The final HTTP-like response produced by the payment-capable fetch:
status, status text, headers, and the two body decoders.  `jsonBody` is
the outcome of `response.json()` (which can throw on a malformed body);
`response.text()` is modelled as total. -/
structure Response where
  status : Nat
  statusText : String
  headers : List (String × String)
  jsonBody : Except JSError JSValue
  textBody : String

/-- `X402RequestOptions` from the source: every field optional; an absent
field is `none` (for `body`, the JavaScript `undefined`). -/
structure X402RequestOptions where
  method : Option String := none
  headers : Option HeaderRecord := none
  body : JSValue := .undefined
  parseJson : Option Bool := none

/-- The `RequestInit`-shaped options handed to the payment-capable fetch
function (`fetchOptions` in the source). -/
structure FetchOptions where
  method : String
  headers : HeaderRecord
  body : Option JSValue := none

/-- Lines 134–154 of `callEndpoint`: destructure the options with their
defaults and attach the body.  A truthy object body is JSON-serialized
and `headers["Content-Type"]` is assigned `"application/json"`
unconditionally (the `if (!fetchOptions.headers)` guard in the source is
dead: `headers` was already defaulted to `{}`, which is truthy); a truthy
non-object body is passed through; a falsy body is not attached at all. -/
def buildFetchOptions (options : X402RequestOptions) : FetchOptions :=
  let method := options.method.getD "GET"
  let headers := options.headers.getD []
  let body := options.body
  let base : FetchOptions := { method := method, headers := headers }
  if truthy body then
    if isObjectTypeof body then
      { base with
        body := some (.str (jsonStringify body)),
        headers := recordSet base.headers "Content-Type" "application/json" }
    else
      { base with body := some body }
  else base

/-- The decoded `x-payment-response` header (output of the external
`decodeXPaymentResponse`): the four well-known fields, each possibly
absent, plus any further fields as an opaque remainder. -/
structure PaymentInfo where
  txHash : Option String := none
  amount : Option String := none
  recipient : Option String := none
  chainId : Option Int := none
  rest : List (String × JSValue) := []

/-- The `payment` record of an `X402Response` envelope.  `raw := none`
models the JavaScript `null`. -/
structure PaymentFields where
  txHash : Option String
  amount : Option String
  recipient : Option String
  chainId : Option Int
  raw : Option PaymentInfo

/-- The decoded response body: a JSON value when `parseJson`, raw text
otherwise. -/
inductive ResponseData where
  | json (v : JSValue)
  | text (s : String)

/-- The `X402Response<T>` envelope returned to callers. -/
structure X402Response where
  data : ResponseData
  payment : PaymentFields
  status : Nat
  statusText : String

/-- Line 161: `parseJson ? await response.json() : await
response.text()`. -/
def decodeBody (parseJson : Bool) (response : Response) :
    Except JSError ResponseData :=
  if parseJson then response.jsonBody.map .json
  else .ok (.text response.textBody)

/-- Lines 164–165: read the `x-payment-response` header and, when truthy
(present and non-empty), decode it; otherwise `null`. -/
def decodePayment (decodeXPaymentResponse : String → PaymentInfo)
    (response : Response) : Option PaymentInfo :=
  match headersGet response.headers "x-payment-response" with
  | some h => if h ≠ "" then some (decodeXPaymentResponse h) else none
  | none => none

/-- `X402Agent.callEndpoint` (lines 133–184), with the payment-capable
fetch function and the external header decoder as parameters.  A thrown
error is an `Except.error`; the single `catch` of the source wraps every
throw inside the `try` block with the message of line 182, so each of the
two failing operations (`fetchWithPayment`, body decoding) maps to the
same wrapping here. -/
def callEndpoint
    (fetchWithPayment : String → FetchOptions → Except JSError Response)
    (decodeXPaymentResponse : String → PaymentInfo)
    (url : String) (options : X402RequestOptions := {}) :
    Except String X402Response :=
  let parseJson := options.parseJson.getD true
  let fetchOptions := buildFetchOptions options
  match fetchWithPayment url fetchOptions with
  | .error e => .error ("X402 request failed: " ++ errorMessage e)
  | .ok response =>
    match decodeBody parseJson response with
    | .error e => .error ("X402 request failed: " ++ errorMessage e)
    | .ok data =>
      let paymentResponse := decodePayment decodeXPaymentResponse response
      .ok {
        data := data,
        payment := {
          txHash := paymentResponse.bind (·.txHash),
          amount := paymentResponse.bind (·.amount),
          recipient := paymentResponse.bind (·.recipient),
          chainId := paymentResponse.bind (·.chainId),
          raw := paymentResponse },
        status := response.status,
        statusText := response.statusText }

/-- `X402Agent.callBuilderEndpoint` (lines 104–107): fixed path suffix and
`{ method: "GET" }`, delegated to `callEndpoint`. -/
def callBuilderEndpoint
    (fetchWithPayment : String → FetchOptions → Except JSError Response)
    (decodeXPaymentResponse : String → PaymentInfo)
    (baseUrl : String) : Except String X402Response :=
  callEndpoint fetchWithPayment decodeXPaymentResponse
    (baseUrl ++ "/api/payment/builder") { method := some "GET" }

/-- A viem `Account` as far as the wrapper observes it: only the derived
address is read (`this.account.address`); the signing capability lives in
the external library. -/
structure Account where
  address : String
deriving Repr, DecidableEq

/-- JavaScript `String.prototype.startsWith` (`privateKey.startsWith("0x")`
on line 73), embedded as a character-level prefix test so it stays
kernel-executable. -/
def strStartsWith (s p : String) : Bool :=
  p.data.isPrefixOf s.data

/-- The constructed agent: the derived account and the payment-capable
fetch function built from it (`wrapFetchWithPayment(fetch, account)`). -/
structure X402Agent where
  account : Account
  fetchWithPayment : String → FetchOptions → Except JSError Response

/-- The `X402Agent` constructor (lines 72–79): the only check performed by
the wrapper itself is the `0x` prefix; on success the account is derived
via the external `privateKeyToAccount` and the payment-capable fetch is
built via the external `wrapFetchWithPayment`, both passed here as
oracles.  A thrown error is an `Except.error` with the thrown message. -/
def X402Agent.construct
    (privateKeyToAccount : String → Account)
    (wrapFetchWithPayment : Account → String → FetchOptions → Except JSError Response)
    (privateKey : String) : Except String X402Agent :=
  if ¬ strStartsWith privateKey "0x" then
    .error "Private key must start with 0x"
  else
    let account := privateKeyToAccount privateKey
    .ok { account := account, fetchWithPayment := wrapFetchWithPayment account }

/-- The `address` getter (lines 84–86): a pure, total read of the derived
address. -/
def X402Agent.address (a : X402Agent) : String :=
  a.account.address

/-- Method form of `callEndpoint`: the instance uses its own
`fetchWithPayment`. -/
def X402Agent.callEndpoint (a : X402Agent)
    (decodeXPaymentResponse : String → PaymentInfo)
    (url : String) (options : X402RequestOptions := {}) :
    Except String X402Response :=
  X402.callEndpoint a.fetchWithPayment decodeXPaymentResponse url options

/-- Method form of `callBuilderEndpoint`. -/
def X402Agent.callBuilderEndpoint (a : X402Agent)
    (decodeXPaymentResponse : String → PaymentInfo)
    (baseUrl : String) : Except String X402Response :=
  X402.callBuilderEndpoint a.fetchWithPayment decodeXPaymentResponse baseUrl

/-- `m` occurs as a substring of `s`. -/
def strContains (s m : String) : Prop :=
  ∃ p q : List Char, s.data = p ++ m.data ++ q

/-! ## Helper lemmas -/

/-- Reading back a key just assigned on a JavaScript record yields the
assigned value. -/
theorem recordGet_recordSet_self (r : HeaderRecord) (k v : String) :
    recordGet (recordSet r k v) k = some v := by
  induction r with
  | nil => simp [recordSet, recordGet]
  | cons p t ih =>
    by_cases hp : p.1 = k
    · by_cases ha : t.any (fun q => q.1 = k) <;>
        simp [recordSet, recordGet, hp, ha]
    · by_cases ha : t.any (fun q => q.1 = k) <;>
        simpa [recordSet, recordGet, hp, ha] using ih

/-- Evaluation of `callEndpoint` when the payment-capable fetch returns a
response and the body decodes. -/
theorem callEndpoint_ok
    (f : String → FetchOptions → Except JSError Response)
    (d : String → PaymentInfo) (url : String)
    (options : X402RequestOptions) (resp : Response) (data : ResponseData)
    (hf : f url (buildFetchOptions options) = .ok resp)
    (hd : decodeBody (options.parseJson.getD true) resp = .ok data) :
    callEndpoint f d url options = .ok {
      data := data,
      payment := {
        txHash := (decodePayment d resp).bind (·.txHash),
        amount := (decodePayment d resp).bind (·.amount),
        recipient := (decodePayment d resp).bind (·.recipient),
        chainId := (decodePayment d resp).bind (·.chainId),
        raw := decodePayment d resp },
      status := resp.status,
      statusText := resp.statusText } := by
  simp only [callEndpoint, hf, hd]

/-- Evaluation of `callEndpoint` when the payment-capable fetch throws. -/
theorem callEndpoint_fetch_error
    (f : String → FetchOptions → Except JSError Response)
    (d : String → PaymentInfo) (url : String)
    (options : X402RequestOptions) (e : JSError)
    (hf : f url (buildFetchOptions options) = .error e) :
    callEndpoint f d url options =
      .error ("X402 request failed: " ++ errorMessage e) := by
  simp only [callEndpoint, hf]

/-- Evaluation of `callEndpoint` when the fetch succeeds but decoding the
body throws. -/
theorem callEndpoint_body_error
    (f : String → FetchOptions → Except JSError Response)
    (d : String → PaymentInfo) (url : String)
    (options : X402RequestOptions) (resp : Response) (e : JSError)
    (hf : f url (buildFetchOptions options) = .ok resp)
    (hd : decodeBody (options.parseJson.getD true) resp = .error e) :
    callEndpoint f d url options =
      .error ("X402 request failed: " ++ errorMessage e) := by
  simp only [callEndpoint, hf, hd]

/-- A string contains its appended suffix. -/
theorem strContains_append_right (p m : String) : strContains (p ++ m) m :=
  ⟨p.data, [], by simp [String.data_append]⟩

/-- Every string contains the empty string. -/
theorem strContains_empty (s : String) (h : m = "") : strContains s m :=
  ⟨s.data, [], by simp [h]⟩

/-! ## Claims -/

/-- C1, counterexample: with an object body, line 150 assigns
`headers["Content-Type"] = "application/json"` unconditionally, so a
caller-supplied `Content-Type: text/plain` in `options.headers` is NOT
left untouched — the emitted request maps `Content-Type` to
`application/json`, not to the caller's value. -/
theorem c1_content_type_counterexample :
    recordGet (buildFetchOptions
      { headers := some [("Content-Type", "text/plain")],
        body := JSValue.obj [] }).headers "Content-Type" =
      some "application/json" ∧
    recordGet (buildFetchOptions
      { headers := some [("Content-Type", "text/plain")],
        body := JSValue.obj [] }).headers "Content-Type" ≠
      some "text/plain" := by
  constructor <;> decide

/-- C1 (amended): for every call to `callEndpoint` whose `options.body`
is an object (`typeof` object and truthy, i.e. not `null`), the transport
request handed to the payment-capable fetch function has its body equal
to the JSON serialization of that object and its headers record maps
`Content-Type` to `application/json`; a caller-supplied `Content-Type`
entry is overwritten with `application/json` rather than left
untouched. -/
theorem c1_object_body_serialized (options : X402RequestOptions)
    (hobj : isObjectTypeof options.body = true)
    (htruthy : truthy options.body = true) :
    (buildFetchOptions options).body =
      some (.str (jsonStringify options.body)) ∧
    recordGet (buildFetchOptions options).headers "Content-Type" =
      some "application/json" := by
  refine ⟨?_, ?_⟩ <;>
    simp [buildFetchOptions, htruthy, hobj, recordGet_recordSet_self]

/-- Witness for C1 (amended) at a concrete object body. -/
theorem c1_object_body_serialized_witness :
    (buildFetchOptions { body := JSValue.obj [("a", JSValue.num 1)] }).body =
      some (.str (jsonStringify (JSValue.obj [("a", JSValue.num 1)]))) ∧
    recordGet (buildFetchOptions
      { body := JSValue.obj [("a", JSValue.num 1)] }).headers "Content-Type" =
      some "application/json" :=
  c1_object_body_serialized { body := JSValue.obj [("a", JSValue.num 1)] }
    rfl rfl

/-- C2: when the final response carries no `x-payment-response` header,
the envelope's `payment.raw` is `none` (JavaScript `null`) and all four
payment fields are `none` (undefined), while `status` and `statusText`
still come from the transport response. -/
theorem c2_no_payment_header
    (f : String → FetchOptions → Except JSError Response)
    (d : String → PaymentInfo) (url : String) (options : X402RequestOptions)
    (resp : Response) (data : ResponseData)
    (hf : f url (buildFetchOptions options) = .ok resp)
    (hd : decodeBody (options.parseJson.getD true) resp = .ok data)
    (hh : headersGet resp.headers "x-payment-response" = none) :
    callEndpoint f d url options = .ok {
      data := data,
      payment := { txHash := none, amount := none, recipient := none,
                   chainId := none, raw := none },
      status := resp.status, statusText := resp.statusText } := by
  rw [callEndpoint_ok f d url options resp data hf hd]
  simp [decodePayment, hh]

/-- Witness for C2 at a concrete response without the payment header. -/
theorem c2_no_payment_header_witness :
    callEndpoint
      (fun _ _ => .ok { status := 200, statusText := "OK", headers := [],
                        jsonBody := .ok (.str "ok"), textBody := "raw" })
      (fun _ => {}) "http://x" {} =
    .ok { data := .json (.str "ok"),
          payment := { txHash := none, amount := none, recipient := none,
                       chainId := none, raw := none },
          status := 200, statusText := "OK" } :=
  c2_no_payment_header
    (fun _ _ => .ok { status := 200, statusText := "OK", headers := [],
                      jsonBody := .ok (.str "ok"), textBody := "raw" })
    (fun _ => {}) "http://x" {}
    { status := 200, statusText := "OK", headers := [],
      jsonBody := .ok (.str "ok"), textBody := "raw" }
    (.json (.str "ok")) rfl rfl rfl

/-- C3: when the final response carries a non-empty `x-payment-response`
header, the envelope's four payment fields each equal the corresponding
field of the decoded object (absent stays absent), and `payment.raw` is
the full decoded object. -/
theorem c3_payment_header_decoded
    (f : String → FetchOptions → Except JSError Response)
    (d : String → PaymentInfo) (url : String) (options : X402RequestOptions)
    (resp : Response) (data : ResponseData) (h : String)
    (hf : f url (buildFetchOptions options) = .ok resp)
    (hd : decodeBody (options.parseJson.getD true) resp = .ok data)
    (hh : headersGet resp.headers "x-payment-response" = some h)
    (hne : h ≠ "") :
    callEndpoint f d url options = .ok {
      data := data,
      payment := { txHash := (d h).txHash, amount := (d h).amount,
                   recipient := (d h).recipient, chainId := (d h).chainId,
                   raw := some (d h) },
      status := resp.status, statusText := resp.statusText } := by
  rw [callEndpoint_ok f d url options resp data hf hd]
  simp [decodePayment, hh, hne]

/-- Witness for C3 at a concrete response and decoder. -/
theorem c3_payment_header_decoded_witness :
    callEndpoint
      (fun _ _ => .ok { status := 200, statusText := "OK",
                        headers := [("x-payment-response", "abc")],
                        jsonBody := .ok (.str "ok"), textBody := "raw" })
      (fun s => { txHash := some s, amount := some "10000000000000",
                  recipient := some "0x5678", chainId := some 84532 })
      "http://x" {} =
    .ok { data := .json (.str "ok"),
          payment := { txHash := some "abc", amount := some "10000000000000",
                       recipient := some "0x5678", chainId := some 84532,
                       raw := some { txHash := some "abc",
                                     amount := some "10000000000000",
                                     recipient := some "0x5678",
                                     chainId := some 84532 } },
          status := 200, statusText := "OK" } :=
  c3_payment_header_decoded
    (fun _ _ => .ok { status := 200, statusText := "OK",
                      headers := [("x-payment-response", "abc")],
                      jsonBody := .ok (.str "ok"), textBody := "raw" })
    (fun s => { txHash := some s, amount := some "10000000000000",
                recipient := some "0x5678", chainId := some 84532 })
    "http://x" {}
    { status := 200, statusText := "OK",
      headers := [("x-payment-response", "abc")],
      jsonBody := .ok (.str "ok"), textBody := "raw" }
    (.json (.str "ok")) "abc" rfl rfl (by decide) (by decide)

/-- C4: `callBuilderEndpoint baseUrl` is the very same computation as
`callEndpoint (baseUrl ++ "/api/payment/builder")` with
`{ method := "GET" }`, for every fetch behaviour and decoder. -/
theorem c4_builder_endpoint_equiv
    (f : String → FetchOptions → Except JSError Response)
    (d : String → PaymentInfo) (baseUrl : String) :
    callBuilderEndpoint f d baseUrl =
      callEndpoint f d (baseUrl ++ "/api/payment/builder")
        { method := some "GET" } := rfl

/-- C5: a signing key without the `0x` prefix makes construction fail
with the configuration error, under every account-derivation and
fetch-wrapping oracle (so no account is derived and no fetch is built);
and the prefix check is the only validation: every `0x`-prefixed key
constructs successfully. -/
theorem c5_constructor_prefix_check
    (privateKeyToAccount : String → Account)
    (wrapFetch : Account → String → FetchOptions → Except JSError Response)
    (key : String) :
    (¬ strStartsWith key "0x" →
      X402Agent.construct privateKeyToAccount wrapFetch key =
        .error "Private key must start with 0x") ∧
    (strStartsWith key "0x" →
      X402Agent.construct privateKeyToAccount wrapFetch key =
        .ok { account := privateKeyToAccount key,
              fetchWithPayment := wrapFetch (privateKeyToAccount key) }) := by
  constructor <;> intro h <;> simp [X402Agent.construct, h]

/-- Witness for C5: a prefix-less key fails, a prefixed key constructs. -/
theorem c5_constructor_prefix_check_witness :
    X402Agent.construct (fun _ => { address := "0xA" })
      (fun _ _ _ => .error { message := "" }) "abc" =
      .error "Private key must start with 0x" ∧
    X402Agent.construct (fun _ => { address := "0xA" })
      (fun _ _ _ => .error { message := "" }) "0x12" =
      .ok { account := { address := "0xA" },
            fetchWithPayment :=
              (fun _ _ _ => .error { message := "" })
                ({ address := "0xA" } : Account) } :=
  ⟨(c5_constructor_prefix_check _ _ "abc").1 (by decide),
   (c5_constructor_prefix_check _ _ "0x12").2 (by decide)⟩

/-- C6: when the payment-capable fetch throws, or the body decoding
throws, `callEndpoint` produces a single wrapped request error whose
message contains the original error's message text; no envelope is
returned and no second fetch is attempted (the result is exactly the
wrapped error of the one delegated call). -/
theorem c6_error_wrapped
    (f : String → FetchOptions → Except JSError Response)
    (d : String → PaymentInfo) (url : String) (options : X402RequestOptions)
    (e : JSError)
    (h : f url (buildFetchOptions options) = .error e ∨
      ∃ resp, f url (buildFetchOptions options) = .ok resp ∧
        decodeBody (options.parseJson.getD true) resp = .error e) :
    callEndpoint f d url options =
      .error ("X402 request failed: " ++ errorMessage e) ∧
    strContains ("X402 request failed: " ++ errorMessage e) e.message := by
  constructor
  · rcases h with hf | ⟨resp, hf, hd⟩
    · exact callEndpoint_fetch_error f d url options e hf
    · exact callEndpoint_body_error f d url options resp e hf hd
  · by_cases hm : e.message = ""
    · exact strContains_empty _ hm
    · have hmsg : errorMessage e = e.message := by simp [errorMessage, hm]
      rw [hmsg]
      exact strContains_append_right _ _

/-- Witness for C6 at a concrete throwing transport. -/
theorem c6_error_wrapped_witness :
    callEndpoint (fun _ _ => .error { message := "network down" })
      (fun _ => {}) "http://x" {} =
      .error "X402 request failed: network down" ∧
    strContains "X402 request failed: network down" "network down" :=
  c6_error_wrapped (fun _ _ => .error { message := "network down" })
    (fun _ => {}) "http://x" {} { message := "network down" } (Or.inl rfl)

/-- C7: whenever the delegated fetch returns a response (any HTTP status)
and the body decodes, `callEndpoint` returns a normal envelope whose
`status` and `statusText` equal the response's; a non-OK status alone
never produces an error. -/
theorem c7_status_passthrough
    (f : String → FetchOptions → Except JSError Response)
    (d : String → PaymentInfo) (url : String) (options : X402RequestOptions)
    (resp : Response) (data : ResponseData)
    (hf : f url (buildFetchOptions options) = .ok resp)
    (hd : decodeBody (options.parseJson.getD true) resp = .ok data) :
    ∃ env, callEndpoint f d url options = .ok env ∧
      env.status = resp.status ∧ env.statusText = resp.statusText :=
  ⟨_, callEndpoint_ok f d url options resp data hf hd, rfl, rfl⟩

/-- Witness for C7 at a concrete non-2xx (404) response. -/
theorem c7_status_passthrough_witness :
    ∃ env, callEndpoint
      (fun _ _ => .ok { status := 404, statusText := "Not Found",
                        headers := [], jsonBody := .ok .null, textBody := "" })
      (fun _ => {}) "http://x" {} = .ok env ∧
      env.status = 404 ∧ env.statusText = "Not Found" :=
  c7_status_passthrough
    (fun _ _ => .ok { status := 404, statusText := "Not Found",
                      headers := [], jsonBody := .ok .null, textBody := "" })
    (fun _ => {}) "http://x" {}
    { status := 404, statusText := "Not Found",
      headers := [], jsonBody := .ok .null, textBody := "" }
    (.json .null) rfl rfl

/-- C8: `address` is deterministic and pure: two clients constructed from
the same key (under the same account derivation, with any fetch
wrappers) expose the same address, and reading it is a total function
with no effects. -/
theorem c8_address_deterministic (pk : String → Account)
    (w1 w2 : Account → String → FetchOptions → Except JSError Response)
    (key : String) (a1 a2 : X402Agent)
    (h1 : X402Agent.construct pk w1 key = .ok a1)
    (h2 : X402Agent.construct pk w2 key = .ok a2) :
    a1.address = a2.address := by
  by_cases hp : strStartsWith key "0x"
  · simp [X402Agent.construct, hp] at h1 h2
    rw [← h1, ← h2]
    rfl
  · simp [X402Agent.construct, hp] at h1

/-- Witness for C8 at a concrete key and two different fetch wrappers. -/
theorem c8_address_deterministic_witness :
    X402Agent.address
      { account := { address := "0xA" },
        fetchWithPayment := fun _ _ => .error { message := "x" } } =
    X402Agent.address
      { account := { address := "0xA" },
        fetchWithPayment := fun _ _ => .error { message := "y" } } :=
  c8_address_deterministic (fun _ => { address := "0xA" })
    (fun _ _ _ => .error { message := "x" })
    (fun _ _ _ => .error { message := "y" })
    "0x12" _ _ rfl rfl

/-- C9: omitted options take their defaults — `method` becomes `"GET"`,
`headers` becomes the empty record, and `parseJson` defaults to `true`
(JSON-decoded body); with `parseJson := false` the body is the raw
text. -/
theorem c9_defaults
    (f : String → FetchOptions → Except JSError Response)
    (d : String → PaymentInfo) (url : String) (options : X402RequestOptions)
    (resp : Response) (v : JSValue) :
    (options.method = none → (buildFetchOptions options).method = "GET") ∧
    (options.headers = none → options.body = .undefined →
      (buildFetchOptions options).headers = []) ∧
    (options.parseJson = none → f url (buildFetchOptions options) = .ok resp →
      resp.jsonBody = .ok v →
      ∃ env, callEndpoint f d url options = .ok env ∧ env.data = .json v) ∧
    (options.parseJson = some false → f url (buildFetchOptions options) = .ok resp →
      ∃ env, callEndpoint f d url options = .ok env ∧
        env.data = .text resp.textBody) := by
  refine ⟨?_, ?_, ?_, ?_⟩
  · intro h
    simp only [buildFetchOptions, h, Option.getD_none]
    split
    · split <;> rfl
    · rfl
  · intro hh hb
    unfold buildFetchOptions
    simp [hb, truthy, hh]
  · intro hpj hf hv
    exact ⟨_, callEndpoint_ok f d url options resp (.json v) hf
      (by simp [decodeBody, hpj, hv, Except.map]), rfl⟩
  · intro hpj hf
    exact ⟨_, callEndpoint_ok f d url options resp (.text resp.textBody) hf
      (by simp [decodeBody, hpj]), rfl⟩

/-- Witness for C9: all four defaults at concrete inputs. -/
theorem c9_defaults_witness :
    (buildFetchOptions {}).method = "GET" ∧
    (buildFetchOptions {}).headers = [] ∧
    (∃ env, callEndpoint
      (fun _ _ => .ok { status := 200, statusText := "OK", headers := [],
                        jsonBody := .ok (.str "ok"), textBody := "raw" })
      (fun _ => {}) "http://x" {} = .ok env ∧ env.data = .json (.str "ok")) ∧
    (∃ env, callEndpoint
      (fun _ _ => .ok { status := 200, statusText := "OK", headers := [],
                        jsonBody := .ok (.str "ok"), textBody := "raw" })
      (fun _ => {}) "http://x" { parseJson := some false } = .ok env ∧
      env.data = .text "raw") := by
  have h1 := c9_defaults
    (fun _ _ => .ok { status := 200, statusText := "OK", headers := [],
                      jsonBody := .ok (.str "ok"), textBody := "raw" })
    (fun _ => {}) "http://x" {}
    { status := 200, statusText := "OK", headers := [],
      jsonBody := .ok (.str "ok"), textBody := "raw" } (.str "ok")
  have h2 := c9_defaults
    (fun _ _ => .ok { status := 200, statusText := "OK", headers := [],
                      jsonBody := .ok (.str "ok"), textBody := "raw" })
    (fun _ => {}) "http://x" { parseJson := some false }
    { status := 200, statusText := "OK", headers := [],
      jsonBody := .ok (.str "ok"), textBody := "raw" } (.str "ok")
  exact ⟨h1.1 rfl, h1.2.1 rfl rfl, h1.2.2.1 rfl rfl rfl, h2.2.2.2 rfl rfl⟩

/-- C10: a falsy `body` other than `undefined` (`""`, `0`, `false`,
`NaN`, `null`) is dropped: the transport request carries no body and no
`Content-Type` header is injected (the headers are exactly the
destructured caller headers). -/
theorem c10_falsy_body_dropped (options : X402RequestOptions)
    (h : options.body = .null ∨ options.body = .bool false ∨
         options.body = .nan ∨ options.body = .num 0 ∨
         options.body = .str "") :
    (buildFetchOptions options).body = none ∧
    (buildFetchOptions options).headers = options.headers.getD [] := by
  have ht : truthy options.body = false := by
    rcases h with h | h | h | h | h <;> simp [h, truthy]
  unfold buildFetchOptions
  simp [ht]

/-- Witness for C10 at an explicitly supplied empty-string body. -/
theorem c10_falsy_body_dropped_witness :
    (buildFetchOptions
      { headers := some [("A", "b")], body := JSValue.str "" }).body = none ∧
    (buildFetchOptions
      { headers := some [("A", "b")], body := JSValue.str "" }).headers =
      [("A", "b")] :=
  c10_falsy_body_dropped { headers := some [("A", "b")], body := .str "" }
    (Or.inr (Or.inr (Or.inr (Or.inr rfl))))

end X402
